import Mathlib

/-!
Shallow embedding of the rate-limited LinkedIn content-acquisition engine
(`src/backend/src/services/linkedinScraper.ts`) and proofs about its
pacing, deduplication, termination and error behaviour.

Conventions of the embedding:
* Timestamps (`Date.now()` values) are integers (milliseconds).
* `Math.random()` draws are injected as a rational parameter `rand` with
  `0 ≤ rand < 1`.
* JavaScript exceptions (`throw new Error(...)`) are modelled as
  `Except.error` results; a normal return is `Except.ok`.
* The browser page is modelled by an environment: whether the cookie login
  succeeds, whether navigation succeeds, and for each extraction step the
  list of DOM post elements and the observed `document.body.scrollHeight`.
* `textContent` values that may be absent (missing element or null text)
  are `Option String`.
-/

namespace LinkAgent

/-- `ScrapingConfig` from linkedinScraper.ts. Delay bounds are
milliseconds. -/
structure ScrapingConfig where
  minDelay : Int
  maxDelay : Int
  maxConcurrent : Nat
  maxPerHour : Nat
  respectRobotsTxt : Bool
  deriving Repr, DecidableEq

/-- `DEFAULT_CONFIG` with the default environment variables
(SCRAPER_MIN_DELAY=3000, SCRAPER_MAX_CONCURRENT=1, SCRAPER_MAX_PER_HOUR=20). -/
def DEFAULT_CONFIG : ScrapingConfig :=
  { minDelay := 3000, maxDelay := 8000, maxConcurrent := 1,
    maxPerHour := 20, respectRobotsTxt := true }

/-- The mutable counters of a `LinkedInScraper` instance:
`requestCount`, `lastRequestTime`, `hourlyRequestCount`, `hourStartTime`. -/
structure ScraperState where
  requestCount : Nat
  lastRequestTime : Int
  hourlyRequestCount : Nat
  hourStartTime : Int
  deriving Repr, DecidableEq

/-- Fresh scraper state: all counters zero, `hourStartTime = Date.now()`
at construction. -/
def ScraperState.init (constructedAt : Int) : ScraperState :=
  { requestCount := 0, lastRequestTime := 0, hourlyRequestCount := 0,
    hourStartTime := constructedAt }

/-- `getRandomDelay`: `Math.floor(Math.random() * (maxDelay - minDelay) + minDelay)`,
with the `Math.random()` draw passed in as `rand`. -/
def getRandomDelay (cfg : ScrapingConfig) (rand : ℚ) : Int :=
  Int.floor (rand * ((cfg.maxDelay : ℚ) - (cfg.minDelay : ℚ)) + (cfg.minDelay : ℚ))

/-- Result of `checkRateLimits`: whether the request may proceed, the
scraper state after the check (the hourly window may have been rolled),
and the number of milliseconds slept before returning. -/
structure RateCheck where
  canProceed : Bool
  state : ScraperState
  waited : Int
  deriving Repr, DecidableEq

/-- `checkRateLimits` from linkedinScraper.ts: roll the hourly window if an
hour has passed, deny when the hourly counter has reached `maxPerHour`,
otherwise sleep until the randomized inter-request delay has elapsed. -/
def checkRateLimits (cfg : ScrapingConfig) (s : ScraperState) (now : Int)
    (rand : ℚ) : RateCheck :=
  let s1 : ScraperState :=
    if now - s.hourStartTime ≥ 60 * 60 * 1000 then
      { s with hourlyRequestCount := 0, hourStartTime := now }
    else s
  if s1.hourlyRequestCount ≥ cfg.maxPerHour then
    { canProceed := false, state := s1, waited := 0 }
  else
    let timeSinceLastRequest := now - s1.lastRequestTime
    let requiredDelay := getRandomDelay cfg rand
    let waited :=
      if timeSinceLastRequest < requiredDelay then
        requiredDelay - timeSinceLastRequest
      else 0
    { canProceed := true, state := s1, waited := waited }

/-- `getStats` from linkedinScraper.ts. -/
def getStats (s : ScraperState) (now : Int) : Nat × Nat × Int :=
  (s.requestCount, s.hourlyRequestCount, s.hourStartTime + 60 * 60 * 1000 - now)

/-- The whitespace test used to model the JavaScript `String.prototype.trim`. -/
def jsWhitespace (c : Char) : Bool :=
  c = ' ' || c = '\t' || c = '\n' || c = '\r'

/-- Model of the JavaScript `trim()`: strip leading and trailing whitespace. -/
def jsTrim (s : String) : String :=
  String.mk (((s.toList.dropWhile jsWhitespace).reverse.dropWhile jsWhitespace).reverse)

/-- `parseInt` applied to the digit-only string produced by
`text.replace(/[^0-9]/g, '') || '0'`: keep the digits of `text` in order
and read them as a number (the empty digit string is replaced by "0",
which also parses to 0). -/
def parseDigits (text : String) : Nat :=
  (text.toList.filter Char.isDigit).foldl (fun n c => n * 10 + (c.toNat - 48)) 0

/-- One `.feed-shared-update-v2` DOM element as seen by the in-page
extraction callback of `scrapeTopicPosts`: the (possibly absent)
`textContent` of each queried sub-element, the `href` of the post link,
and the `src` list of the media images. -/
structure DomEntry where
  authorText : Option String := none
  authorTitleText : Option String := none
  contentText : Option String := none
  likesText : Option String := none
  commentsText : Option String := none
  timestampText : Option String := none
  linkHref : Option String := none
  mediaSrcs : List String := []
  deriving Repr, DecidableEq

/-- The `Partial<LinkedInPost>` record built inside `page.evaluate` for one
post element (fallbacks already applied by the in-page code). -/
structure RawPost where
  author : String
  authorTitle : Option String
  content : String
  likes : Nat
  comments : Nat
  timestamp : Option String
  postUrl : Option String
  mediaUrls : Option (List String)
  deriving Repr, DecidableEq

/-- The in-page extraction of one DOM element
(`scrapeTopicPosts`, lines 219-242):
`author` falls back to "Unknown" when the element, its text, or the trimmed
text is missing or empty; `content` falls back to the empty string; the
engagement counters fall back to 0; the optional fields stay absent. -/
def extractPost (e : DomEntry) : RawPost :=
  { author :=
      match e.authorText with
      | none => "Unknown"
      | some t => if jsTrim t = "" then "Unknown" else jsTrim t
    authorTitle := e.authorTitleText.map jsTrim
    content := jsTrim (e.contentText.getD "")
    likes := parseDigits (e.likesText.getD "")
    comments := parseDigits (e.commentsText.getD "")
    timestamp := e.timestampText.map jsTrim
    postUrl :=
      match e.linkHref with
      | none => none
      | some h => if h = "" then none else some h
    mediaUrls := if e.mediaSrcs.isEmpty then none else some e.mediaSrcs }

/-- The `LinkedInPost` interface of linkedinScraper.ts. -/
structure LinkedInPost where
  id : String
  author : String
  authorProfile : Option String := none
  authorTitle : Option String := none
  content : String
  likes : Nat
  comments : Nat
  shares : Nat
  timestamp : Option String := none
  postUrl : Option String := none
  mediaUrls : Option (List String) := none
  deriving Repr, DecidableEq

/-- The record pushed onto `posts` for an accepted raw post
(`scrapeTopicPosts`, lines 261-272); `n` is `posts.length` at push time
and `idTime` models the `Date.now()` read in the id template. -/
def mkPost (idTime : Int) (n : Nat) (p : RawPost) : LinkedInPost :=
  { id := "post_" ++ toString idTime ++ "_" ++ toString n
    author := if p.author = "" then "Unknown" else p.author
    authorTitle := p.authorTitle
    content := p.content
    likes := p.likes
    comments := p.comments
    shares := 0
    timestamp := p.timestamp
    postUrl := p.postUrl
    mediaUrls := p.mediaUrls }

/-- The duplicate check of `scrapeTopicPosts` (lines 256-258): an already
accumulated post with the same `content` and the same `author`. -/
def isDuplicate (posts : List LinkedInPost) (p : RawPost) : Bool :=
  posts.any fun q => q.content == p.content && q.author == p.author

/-- The accumulation loop over one extracted batch
(`scrapeTopicPosts`, lines 252-274): stop at the limit, skip duplicates
and posts with empty content, otherwise append. -/
def addUnique (limit : Nat) (idTime : Int) :
    List LinkedInPost → List RawPost → List LinkedInPost
  | posts, [] => posts
  | posts, p :: rest =>
    if posts.length ≥ limit then posts
    else if !isDuplicate posts p && !(p.content == "") then
      addUnique limit idTime (posts ++ [mkPost idTime posts.length p]) rest
    else
      addUnique limit idTime posts rest

/-- Behaviour of the rendered page during one `scrapeTopicPosts` call:
whether the cookie login verifies, whether navigation to the search URL
succeeds, and for extraction step `i` the DOM post elements and the
observed `document.body.scrollHeight`. -/
structure CrawlEnv where
  loginOk : Bool
  navOk : Bool
  pageAt : Nat → List DomEntry
  heightAt : Nat → Int

/-- Outcome of the scroll-and-collect loop together with how many
extractions (`page.evaluate` over the post elements) and scrolls
(`window.scrollBy`) were performed. -/
structure LoopResult where
  posts : List LinkedInPost
  extractions : Nat
  scrolls : Nat
  deriving Repr, DecidableEq

/-- The `while (posts.length < limit && scrollAttempts < maxScrollAttempts)`
loop of `scrapeTopicPosts` (lines 213-292). `fuel` is
`maxScrollAttempts - scrollAttempts`, `i` counts the extractions already
performed, `prevH` is `previousHeight`. Each iteration extracts the
current view, merges it with `addUnique`, then breaks if the page height
did not change and otherwise scrolls. -/
def collectLoop (limit : Nat) (idTime : Int) (env : CrawlEnv) :
    Nat → Nat → Int → List LinkedInPost → Nat → Nat → LoopResult
  | 0, _, _, posts, ex, sc => { posts := posts, extractions := ex, scrolls := sc }
  | fuel + 1, i, prevH, posts, ex, sc =>
    if posts.length < limit then
      let newPosts := (env.pageAt i).map extractPost
      let posts1 := addUnique limit idTime posts newPosts
      let currentHeight := env.heightAt i
      if currentHeight = prevH then
        { posts := posts1, extractions := ex + 1, scrolls := sc }
      else
        collectLoop limit idTime env fuel (i + 1) currentHeight posts1 (ex + 1) (sc + 1)
    else
      { posts := posts, extractions := ex, scrolls := sc }

/-- The exceptions a scrape can throw: the rate-limit error
(`Rate limit exceeded. Please try again later.`), the login error
(`Failed to login to LinkedIn...`), or a transport-level navigation
failure propagated from the browser. -/
inductive ScrapeError where
  | rateLimited
  | loginFailed
  | transport
  deriving Repr, DecidableEq

/-- Result of one scrape call: the returned value or the thrown error,
the scraper counters afterwards, and how many extractions and scrolls
were performed against the page. -/
structure ScrapeResult (α : Type) where
  outcome : Except ScrapeError α
  finalState : ScraperState
  extractions : Nat
  scrolls : Nat
  deriving Repr

/-- The counter update performed after a successful scrape
(lines 294-297): `requestCount++`, `hourlyRequestCount++`,
`lastRequestTime = Date.now()`. -/
def bumpCounters (s : ScraperState) (endTime : Int) : ScraperState :=
  { s with requestCount := s.requestCount + 1,
           hourlyRequestCount := s.hourlyRequestCount + 1,
           lastRequestTime := endTime }

/-- `scrapeTopicPosts`: check the rate limit (throwing when denied), log
in with cookies (throwing when the login check fails), navigate to the
search results (throwing on transport failure), run the scroll-and-collect
loop with `maxScrollAttempts = Math.ceil(limit / 10)`, then update the
counters and return the accumulated posts. `now` is the clock at the rate
check, `endTime` the clock at the final counter update, `rand` the
`Math.random()` draw of the rate check. -/
def scrapeTopicPosts (cfg : ScrapingConfig) (s : ScraperState) (env : CrawlEnv)
    (now endTime idTime : Int) (rand : ℚ) (limit : Nat) :
    ScrapeResult (List LinkedInPost) :=
  let c := checkRateLimits cfg s now rand
  if !c.canProceed then
    { outcome := .error .rateLimited, finalState := c.state,
      extractions := 0, scrolls := 0 }
  else if !env.loginOk then
    { outcome := .error .loginFailed, finalState := c.state,
      extractions := 0, scrolls := 0 }
  else if !env.navOk then
    { outcome := .error .transport, finalState := c.state,
      extractions := 0, scrolls := 0 }
  else
    let maxScrollAttempts := (limit + 9) / 10
    let r := collectLoop limit idTime env maxScrollAttempts 0 0 [] 0 0
    { outcome := .ok r.posts, finalState := bumpCounters c.state endTime,
      extractions := r.extractions, scrolls := r.scrolls }

/-- The profile page DOM as seen by the extraction callback of
`scrapeProfile`: the possibly absent `textContent` of the name, headline
and about elements, and the `src` of the banner and photo images. -/
structure ProfileDom where
  nameText : Option String := none
  headlineText : Option String := none
  aboutText : Option String := none
  bannerSrc : Option String := none
  photoSrc : Option String := none
  deriving Repr, DecidableEq

/-- The profile record returned by `scrapeProfile` (lines 346-360). -/
structure ProfileData where
  name : Option String
  headline : Option String
  about : Option String
  bannerUrl : Option String
  photoUrl : Option String
  deriving Repr, DecidableEq

/-- The in-page extraction of `scrapeProfile`: trim each text, pass the
image sources through. -/
def extractProfile (d : ProfileDom) : ProfileData :=
  { name := d.nameText.map jsTrim
    headline := d.headlineText.map jsTrim
    about := d.aboutText.map jsTrim
    bannerUrl := d.bannerSrc
    photoUrl := d.photoSrc }

/-- Page behaviour during one `scrapeProfile` call. -/
structure ProfileEnv where
  loginOk : Bool
  navOk : Bool
  dom : ProfileDom

/-- `scrapeProfile`: rate check, login, navigation, one extraction, then
the counter update (lines 313-373). -/
def scrapeProfile (cfg : ScrapingConfig) (s : ScraperState) (env : ProfileEnv)
    (now endTime : Int) (rand : ℚ) : ScrapeResult ProfileData :=
  let c := checkRateLimits cfg s now rand
  if !c.canProceed then
    { outcome := .error .rateLimited, finalState := c.state,
      extractions := 0, scrolls := 0 }
  else if !env.loginOk then
    { outcome := .error .loginFailed, finalState := c.state,
      extractions := 0, scrolls := 0 }
  else if !env.navOk then
    { outcome := .error .transport, finalState := c.state,
      extractions := 0, scrolls := 0 }
  else
    { outcome := .ok (extractProfile env.dom),
      finalState := bumpCounters c.state endTime,
      extractions := 1, scrolls := 0 }

/-- One `.reusable-search__result-container` DOM element as seen by the
extraction callback of `searchTopCreators`. -/
structure CreatorDom where
  nameText : Option String := none
  titleText : Option String := none
  linkHref : Option String := none
  imageSrc : Option String := none
  deriving Repr, DecidableEq

/-- A creator record built by `searchTopCreators` (lines 429-434). -/
structure Creator where
  name : Option String
  title : Option String
  profileUrl : Option String
  imageUrl : Option String
  deriving Repr, DecidableEq

/-- The in-page extraction of `searchTopCreators`: the `forEach` skips
every element at index `≥ maxResults`; `profileUrl` is the `href` cut at
the first question mark. -/
def extractCreators (maxResults : Nat) (els : List CreatorDom) : List Creator :=
  (els.take maxResults).map fun el =>
    { name := el.nameText.map jsTrim
      title := el.titleText.map jsTrim
      profileUrl := el.linkHref.map fun h => (h.splitOn "?").headD h
      imageUrl := el.imageSrc }

/-- Page behaviour during one `searchTopCreators` call. -/
structure CreatorEnv where
  loginOk : Bool
  navOk : Bool
  els : List CreatorDom

/-- `searchTopCreators`: rate check, login, navigation, one extraction,
counter update, then `creators.filter((c) => c.name)` — keep only records
whose name is present and nonempty (JavaScript truthiness). -/
def searchTopCreators (cfg : ScrapingConfig) (s : ScraperState)
    (env : CreatorEnv) (now endTime : Int) (rand : ℚ) (limit : Nat) :
    ScrapeResult (List Creator) :=
  let c := checkRateLimits cfg s now rand
  if !c.canProceed then
    { outcome := .error .rateLimited, finalState := c.state,
      extractions := 0, scrolls := 0 }
  else if !env.loginOk then
    { outcome := .error .loginFailed, finalState := c.state,
      extractions := 0, scrolls := 0 }
  else if !env.navOk then
    { outcome := .error .transport, finalState := c.state,
      extractions := 0, scrolls := 0 }
  else
    let creators := extractCreators limit env.els
    { outcome := .ok (creators.filter fun cr => !(cr.name.getD "" == "")),
      finalState := bumpCounters c.state endTime,
      extractions := 1, scrolls := 0 }

/-- Arguments of one `scrapeTopicPosts` invocation, used to run sequences
of permission checks and crawl completions against one scraper instance. -/
structure CrawlOp where
  env : CrawlEnv
  now : Int
  endTime : Int
  idTime : Int
  rand : ℚ
  limit : Nat

/-- Run a sequence of `scrapeTopicPosts` invocations, threading the
scraper counters from one to the next. -/
def runOps (cfg : ScrapingConfig) : ScraperState → List CrawlOp → ScraperState
  | s, [] => s
  | s, op :: rest =>
      runOps cfg
        (scrapeTopicPosts cfg s op.env op.now op.endTime op.idTime op.rand
          op.limit).finalState rest

/-- The thrown error of a scrape outcome, if any. -/
def errOf {α : Type} : Except ScrapeError α → Option ScrapeError
  | .error e => some e
  | .ok _ => none

/-- Modelled from the spec (section 3): the dedup fingerprint as the spec
words it — a composite of the author identifier and the first `n`
characters of the content. The code itself never truncates; this
definition exists to compare the spec fingerprint against the code. -/
def specFingerprint (n : Nat) (p : LinkedInPost) : String × String :=
  (p.author, String.mk (p.content.toList.take n))

/-- The distinctness relation the code actually enforces between returned
records: not both the same author and the same full content. -/
def distinctKey (a b : LinkedInPost) : Prop :=
  ¬(a.author = b.author ∧ a.content = b.content)

/-! Concrete fixtures used by witnesses and counterexamples. -/

/-- A fresh scraper (all counters zero). -/
def stFresh : ScraperState := ScraperState.init 0

/-- A scraper pre-seeded at the default hourly ceiling of 20 requests,
window started at time 0. -/
def stSeeded : ScraperState :=
  { requestCount := 20, lastRequestTime := 0, hourlyRequestCount := 20,
    hourStartTime := 0 }

/-- A post by author X whose content starts with the same 10 characters
as `entHello2` but differs afterwards. -/
def entHello1 : DomEntry :=
  { authorText := some "X", contentText := some "HelloWorld1" }

/-- A second post by author X sharing the first 10 content characters
with `entHello1`. -/
def entHello2 : DomEntry :=
  { authorText := some "X", contentText := some "HelloWorld2" }

/-- A page that always shows the two same-prefix posts and whose height
stays 100 on every observation. -/
def envPrefixPair : CrawlEnv :=
  { loginOk := true, navOk := true,
    pageAt := fun _ => [entHello1, entHello2],
    heightAt := fun _ => 100 }

/-- A page with one post whose height never changes (constant 100). -/
def envConstHeight : CrawlEnv :=
  { loginOk := true, navOk := true,
    pageAt := fun i => if i = 0 then [entHello1] else [],
    heightAt := fun _ => 100 }

/-- A page whose login check reports the logged-out state. -/
def envAuthReject : CrawlEnv :=
  { loginOk := false, navOk := true, pageAt := fun _ => [],
    heightAt := fun _ => 0 }

/-- A post element with content but no author element. -/
def entNoAuthor : DomEntry := { contentText := some "hello" }

/-- A page showing only the authorless post. -/
def envNoAuthor : CrawlEnv :=
  { loginOk := true, navOk := true,
    pageAt := fun i => if i = 0 then [entNoAuthor] else [],
    heightAt := fun _ => 100 }

/-- Post element `j` of simulated page `i` of the limit-15 scenario. -/
def scenEntry (i j : Nat) : DomEntry :=
  { authorText := some ("a" ++ toString i ++ toString j),
    contentText := some ("c" ++ toString i ++ toString j) }

/-- Scenario page 0: ten unique posts plus two duplicates. -/
def scenPage0 : List DomEntry :=
  ((List.range 10).map (scenEntry 0)) ++ [scenEntry 0 0, scenEntry 0 1]

/-- Scenario page 1: two duplicates of page 0 plus ten new unique posts. -/
def scenPage1 : List DomEntry :=
  [scenEntry 0 0, scenEntry 0 1] ++ ((List.range 10).map (scenEntry 1))

/-- The limit-15 scenario page: each view yields 10 unique plus 2
duplicate posts and the height changes on every scroll. -/
def envScenario : CrawlEnv :=
  { loginOk := true, navOk := true,
    pageAt := fun i => if i = 0 then scenPage0 else if i = 1 then scenPage1 else [],
    heightAt := fun i => (i : Int) + 1 }

/-- A single benign crawl invocation used in sequence witnesses. -/
def opBenign : CrawlOp :=
  { env := envConstHeight, now := 0, endTime := 5, idTime := 7, rand := 0,
    limit := 10 }

/-- The record the crawl builds from `entHello1` (first push, id time 7). -/
def helloPost1 : LinkedInPost :=
  { id := "post_7_0", author := "X", content := "HelloWorld1",
    likes := 0, comments := 0, shares := 0 }

/-- The record the crawl builds from `entHello2` (second push, id time 7). -/
def helloPost2 : LinkedInPost :=
  { id := "post_7_1", author := "X", content := "HelloWorld2",
    likes := 0, comments := 0, shares := 0 }

/-- A profile page whose login check reports the logged-out state. -/
def profEnvReject : ProfileEnv :=
  { loginOk := false, navOk := true, dom := {} }

/-- A people-search page whose login check reports the logged-out state. -/
def creatorEnvReject : CreatorEnv :=
  { loginOk := false, navOk := true, els := [] }

/-! ### Properties of the pacing governor (`checkRateLimits`) -/

theorem checkRateLimits_state_eq (cfg : ScrapingConfig) (s : ScraperState)
    (now : Int) (rand : ℚ) :
    (checkRateLimits cfg s now rand).state =
      if now - s.hourStartTime ≥ 60 * 60 * 1000 then
        { s with hourlyRequestCount := 0, hourStartTime := now }
      else s := by
  unfold checkRateLimits
  dsimp only
  split <;> split <;> rfl

theorem checkRateLimits_grant_lt (cfg : ScrapingConfig) (s : ScraperState)
    (now : Int) (rand : ℚ)
    (h : (checkRateLimits cfg s now rand).canProceed = true) :
    (checkRateLimits cfg s now rand).state.hourlyRequestCount < cfg.maxPerHour := by
  revert h
  unfold checkRateLimits
  dsimp only
  split <;> split <;> intro h <;> simp_all <;> omega

theorem checkRateLimits_deny (cfg : ScrapingConfig) (s : ScraperState)
    (now : Int) (rand : ℚ)
    (h : cfg.maxPerHour ≤ (checkRateLimits cfg s now rand).state.hourlyRequestCount) :
    (checkRateLimits cfg s now rand).canProceed = false := by
  revert h
  rw [checkRateLimits_state_eq]
  unfold checkRateLimits
  dsimp only
  split <;> split <;> intro h <;> simp_all

theorem checkRateLimits_untouched (cfg : ScrapingConfig) (s : ScraperState)
    (now : Int) (rand : ℚ) :
    (checkRateLimits cfg s now rand).state.lastRequestTime = s.lastRequestTime ∧
    (checkRateLimits cfg s now rand).state.requestCount = s.requestCount := by
  rw [checkRateLimits_state_eq]
  split <;> simp

theorem scrapeTopicPosts_hourly_le (cfg : ScrapingConfig) (s : ScraperState)
    (env : CrawlEnv) (now endTime idTime : Int) (rand : ℚ) (limit : Nat)
    (h : s.hourlyRequestCount ≤ cfg.maxPerHour) :
    (scrapeTopicPosts cfg s env now endTime idTime rand
      limit).finalState.hourlyRequestCount ≤ cfg.maxPerHour := by
  have hc : (checkRateLimits cfg s now rand).state.hourlyRequestCount ≤ cfg.maxPerHour := by
    rw [checkRateLimits_state_eq]; split <;> simp [h]
  unfold scrapeTopicPosts
  dsimp only
  split
  · exact hc
  · split
    · exact hc
    · split
      · exact hc
      · rename_i hcan _ _
        have hcan2 : (checkRateLimits cfg s now rand).canProceed = true := by
          simpa using hcan
        have hlt := checkRateLimits_grant_lt cfg s now rand hcan2
        simp only [bumpCounters]
        omega

theorem runOps_hourly_le (cfg : ScrapingConfig) (ops : List CrawlOp) :
    ∀ s : ScraperState, s.hourlyRequestCount ≤ cfg.maxPerHour →
      (runOps cfg s ops).hourlyRequestCount ≤ cfg.maxPerHour := by
  induction ops with
  | nil => intro s h; exact h
  | cons op rest ih =>
      intro s h
      exact ih _ (scrapeTopicPosts_hourly_le cfg s op.env op.now op.endTime
        op.idTime op.rand op.limit h)

/-- C1: across every sequence of permission checks and crawl completions
the hourly counter stays at or below the configured ceiling; a permission
request while the counter has reached the ceiling inside the current
one-hour window is denied; and a permission request after the window has
expired is granted with the counter reset to 0. -/
theorem hourly_quota_invariant (cfg : ScrapingConfig) :
    (∀ (s : ScraperState) (ops : List CrawlOp),
        s.hourlyRequestCount ≤ cfg.maxPerHour →
        (runOps cfg s ops).hourlyRequestCount ≤ cfg.maxPerHour) ∧
    (∀ (s : ScraperState) (now : Int) (rand : ℚ),
        now - s.hourStartTime < 60 * 60 * 1000 →
        cfg.maxPerHour ≤ s.hourlyRequestCount →
        (checkRateLimits cfg s now rand).canProceed = false) ∧
    (∀ (s : ScraperState) (now : Int) (rand : ℚ),
        now - s.hourStartTime ≥ 60 * 60 * 1000 →
        0 < cfg.maxPerHour →
        (checkRateLimits cfg s now rand).canProceed = true ∧
        (checkRateLimits cfg s now rand).state.hourlyRequestCount = 0) := by
  refine ⟨fun s ops h => runOps_hourly_le cfg ops s h, ?_, ?_⟩
  · intro s now rand hwin hfull
    apply checkRateLimits_deny
    rw [checkRateLimits_state_eq, if_neg (by omega)]
    exact hfull
  · intro s now rand hwin hpos
    have hs : (checkRateLimits cfg s now rand).state.hourlyRequestCount = 0 := by
      rw [checkRateLimits_state_eq, if_pos hwin]
    refine ⟨?_, hs⟩
    by_contra hfalse
    have hb : (checkRateLimits cfg s now rand).canProceed = false := by
      cases hcp : (checkRateLimits cfg s now rand).canProceed
      · rfl
      · exact absurd hcp hfalse
    have := checkRateLimits_grant_lt cfg s now rand
    revert hb
    unfold checkRateLimits
    dsimp only
    split <;> split <;> intro hb <;> simp_all

/-- Witness for C1 at the default configuration (ceiling 20): one benign
crawl from a fresh scraper stays within the quota; the pre-seeded scraper
is denied inside the window and granted with a zeroed counter after it. -/
theorem hourly_quota_invariant_witness :
    (runOps DEFAULT_CONFIG stFresh [opBenign]).hourlyRequestCount ≤ 20 ∧
    (checkRateLimits DEFAULT_CONFIG stSeeded 1000 0).canProceed = false ∧
    ((checkRateLimits DEFAULT_CONFIG stSeeded 3600000 0).canProceed = true ∧
     (checkRateLimits DEFAULT_CONFIG stSeeded 3600000 0).state.hourlyRequestCount = 0) :=
  ⟨(hourly_quota_invariant DEFAULT_CONFIG).1 stFresh [opBenign] (by decide),
   (hourly_quota_invariant DEFAULT_CONFIG).2.1 stSeeded 1000 0 (by decide) (by decide),
   (hourly_quota_invariant DEFAULT_CONFIG).2.2 stSeeded 3600000 0 (by decide) (by decide)⟩

/-! ### Termination and limit bounds of the collect loop -/

theorem collectLoop_scrolls_le (limit : Nat) (idTime : Int) (env : CrawlEnv) :
    ∀ (fuel i : Nat) (prevH : Int) (posts : List LinkedInPost) (ex sc : Nat),
      (collectLoop limit idTime env fuel i prevH posts ex sc).scrolls ≤ sc + fuel := by
  intro fuel
  induction fuel with
  | zero => intro i prevH posts ex sc; simp [collectLoop]
  | succ fuel ih =>
      intro i prevH posts ex sc
      unfold collectLoop
      dsimp only
      split
      · split
        · simp
        · calc (collectLoop limit idTime env fuel (i + 1) (env.heightAt i)
                  (addUnique limit idTime posts ((env.pageAt i).map extractPost))
                  (ex + 1) (sc + 1)).scrolls
              ≤ (sc + 1) + fuel := ih _ _ _ _ _
            _ = sc + (fuel + 1) := by omega
      · simp

/-- C6: for every configuration, counter state, page behaviour and
requested limit, a topic crawl performs at most `ceil(limit / 10)` scroll
iterations (in natural division, `(limit + 9) / 10`), even when the page
height changes on every observation. -/
theorem scroll_ceiling (cfg : ScrapingConfig) (s : ScraperState)
    (env : CrawlEnv) (now endTime idTime : Int) (rand : ℚ) (limit : Nat) :
    (scrapeTopicPosts cfg s env now endTime idTime rand limit).scrolls ≤
      (limit + 9) / 10 := by
  unfold scrapeTopicPosts
  dsimp only
  split
  · simp
  · split
    · simp
    · split
      · simp
      · simpa using collectLoop_scrolls_le limit idTime env ((limit + 9) / 10) 0 0 [] 0 0

theorem addUnique_length_le (limit : Nat) (idTime : Int) :
    ∀ (ps : List RawPost) (posts : List LinkedInPost),
      posts.length ≤ limit → (addUnique limit idTime posts ps).length ≤ limit := by
  intro ps
  induction ps with
  | nil => intro posts h; simpa [addUnique] using h
  | cons p rest ih =>
      intro posts h
      unfold addUnique
      split
      · exact h
      · split
        · rename_i hlen _
          apply ih
          simp at hlen ⊢
          omega
        · exact ih posts h

theorem collectLoop_length_le (limit : Nat) (idTime : Int) (env : CrawlEnv) :
    ∀ (fuel i : Nat) (prevH : Int) (posts : List LinkedInPost) (ex sc : Nat),
      posts.length ≤ limit →
      (collectLoop limit idTime env fuel i prevH posts ex sc).posts.length ≤ limit := by
  intro fuel
  induction fuel with
  | zero => intro i prevH posts ex sc h; simpa [collectLoop] using h
  | succ fuel ih =>
      intro i prevH posts ex sc h
      unfold collectLoop
      dsimp only
      split
      · split
        · simpa using addUnique_length_le limit idTime _ posts h
        · exact ih _ _ _ _ _ (addUnique_length_le limit idTime _ posts h)
      · exact h

/-- C7: a topic crawl never returns more records than the requested
limit; and in the limit-15 scenario (each page shows 10 unique plus 2
duplicate posts, the height changes on every scroll) exactly 2 pages are
extracted and the crawl returns normally with exactly 15 records. -/
theorem limit_truncation :
    (∀ (cfg : ScrapingConfig) (s : ScraperState) (env : CrawlEnv)
        (now endTime idTime : Int) (rand : ℚ) (limit : Nat)
        (l : List LinkedInPost),
        (scrapeTopicPosts cfg s env now endTime idTime rand limit).outcome = .ok l →
        l.length ≤ limit) ∧
    ((scrapeTopicPosts DEFAULT_CONFIG stFresh envScenario 0 5 7 0 15).outcome.toOption.map
        List.length = some 15 ∧
     (scrapeTopicPosts DEFAULT_CONFIG stFresh envScenario 0 5 7 0 15).extractions = 2) := by
  constructor
  · intro cfg s env now endTime idTime rand limit l h
    unfold scrapeTopicPosts at h
    dsimp only at h
    split at h
    · exact absurd h (by simp)
    · split at h
      · exact absurd h (by simp)
      · split at h
        · exact absurd h (by simp)
        · simp only [Except.ok.injEq] at h
          rw [← h]
          exact collectLoop_length_le limit idTime env _ 0 0 [] 0 0 (by simp)
  · exact ⟨by decide, by decide⟩

/-- Witness for C7: a concrete crawl with limit 10 returns the two
extracted records, and the general bound applies to it. -/
theorem limit_truncation_witness :
    (scrapeTopicPosts DEFAULT_CONFIG stFresh envPrefixPair 0 5 7 0 10).outcome =
      Except.ok [helloPost1, helloPost2] ∧
    ([helloPost1, helloPost2] : List LinkedInPost).length ≤ 10 :=
  ⟨by rfl,
   limit_truncation.1 DEFAULT_CONFIG stFresh envPrefixPair 0 5 7 0 10
     [helloPost1, helloPost2] (by rfl)⟩

/-! ### Deduplication -/

theorem extractPost_author_ne (e : DomEntry) : (extractPost e).author ≠ "" := by
  unfold extractPost
  dsimp only
  cases e.authorText with
  | none => simp
  | some t =>
      dsimp only
      split <;> simp_all

theorem addUnique_subset (limit : Nat) (idTime : Int) :
    ∀ (ps : List RawPost) (posts : List LinkedInPost),
      posts ⊆ addUnique limit idTime posts ps := by
  intro ps
  induction ps with
  | nil => intro posts; simp [addUnique]
  | cons p rest ih =>
      intro posts
      unfold addUnique
      split
      · exact List.Subset.refl _
      · split
        · exact (List.subset_append_left _ _).trans (ih _)
        · exact ih posts

theorem isDuplicate_of_mem {posts : List LinkedInPost} {p : RawPost}
    (q : LinkedInPost) (hq : q ∈ posts) (hc : q.content = p.content)
    (ha : q.author = p.author) : isDuplicate posts p = true := by
  unfold isDuplicate
  rw [List.any_eq_true]
  exact ⟨q, hq, by simp [hc, ha]⟩

theorem isDuplicate_false_forall {posts : List LinkedInPost} {p : RawPost}
    (h : isDuplicate posts p = false) :
    ∀ q ∈ posts, ¬(q.content = p.content ∧ q.author = p.author) := by
  intro q hq hcon
  rw [isDuplicate_of_mem q hq hcon.1 hcon.2] at h
  simp at h

theorem addUnique_pairwise (limit : Nat) (idTime : Int) :
    ∀ (ps : List RawPost) (posts : List LinkedInPost),
      (∀ p ∈ ps, p.author ≠ "") →
      posts.Pairwise distinctKey →
      (addUnique limit idTime posts ps).Pairwise distinctKey := by
  intro ps
  induction ps with
  | nil => intro posts _ h; exact h
  | cons p rest ih =>
      intro posts hps h
      unfold addUnique
      split
      · exact h
      · split
        · rename_i hcond
          apply ih _ (fun q hq => hps q (by simp [hq]))
          rw [List.pairwise_append]
          refine ⟨h, List.pairwise_singleton _ _, ?_⟩
          intro a ha b hb
          simp only [List.mem_singleton] at hb
          subst hb
          have hdup : isDuplicate posts p = false := by
            simp only [Bool.and_eq_true, Bool.not_eq_true'] at hcond
            exact hcond.1
          have hne := isDuplicate_false_forall hdup a ha
          have hauthor : p.author ≠ "" := hps p (by simp)
          unfold distinctKey mkPost
          dsimp only
          rw [if_neg hauthor]
          intro hcon
          exact hne ⟨hcon.2, hcon.1⟩
        · exact ih posts (fun q hq => hps q (by simp [hq])) h

theorem collectLoop_pairwise (limit : Nat) (idTime : Int) (env : CrawlEnv) :
    ∀ (fuel i : Nat) (prevH : Int) (posts : List LinkedInPost) (ex sc : Nat),
      posts.Pairwise distinctKey →
      (collectLoop limit idTime env fuel i prevH posts ex sc).posts.Pairwise distinctKey := by
  intro fuel
  induction fuel with
  | zero => intro i prevH posts ex sc h; simpa [collectLoop] using h
  | succ fuel ih =>
      intro i prevH posts ex sc h
      have hstep : (addUnique limit idTime posts
          ((env.pageAt i).map extractPost)).Pairwise distinctKey := by
        apply addUnique_pairwise limit idTime _ posts ?_ h
        intro p hp
        obtain ⟨e, _, rfl⟩ := List.mem_map.mp hp
        exact extractPost_author_ne e
      unfold collectLoop
      dsimp only
      split
      · split
        · exact hstep
        · exact ih _ _ _ _ _ hstep
      · exact h

/-- C2 (amended): within a single crawl invocation no two returned
records agree on both the author and the full content — the pair the
duplicate check actually compares. -/
theorem dedup_exact_pair (cfg : ScrapingConfig) (s : ScraperState)
    (env : CrawlEnv) (now endTime idTime : Int) (rand : ℚ) (limit : Nat)
    (l : List LinkedInPost)
    (h : (scrapeTopicPosts cfg s env now endTime idTime rand limit).outcome = .ok l) :
    l.Pairwise distinctKey := by
  unfold scrapeTopicPosts at h
  dsimp only at h
  split at h
  · exact absurd h (by simp)
  · split at h
    · exact absurd h (by simp)
    · split at h
      · exact absurd h (by simp)
      · simp only [Except.ok.injEq] at h
        rw [← h]
        exact collectLoop_pairwise limit idTime env _ 0 0 [] 0 0 (by simp)

theorem dedup_exact_pair_witness :
    (scrapeTopicPosts DEFAULT_CONFIG stFresh envPrefixPair 0 5 7 0 10).outcome =
      Except.ok [helloPost1, helloPost2] ∧
    ([helloPost1, helloPost2] : List LinkedInPost).Pairwise distinctKey :=
  ⟨by rfl,
   dedup_exact_pair DEFAULT_CONFIG stFresh envPrefixPair 0 5 7 0 10
     [helloPost1, helloPost2] (by rfl)⟩

/-- C2 counterexample: two records returned by one crawl share the
spec fingerprint (author plus first 10 content characters) while their
full contents differ, so the claim with a truncated fingerprint fails. -/
theorem dedup_fingerprint_cex :
    (scrapeTopicPosts DEFAULT_CONFIG stFresh envPrefixPair 0 5 7 0 10).outcome =
      Except.ok [helloPost1, helloPost2] ∧
    specFingerprint 10 helloPost1 = specFingerprint 10 helloPost2 ∧
    helloPost1.content ≠ helloPost2.content :=
  ⟨by rfl, by decide, by decide⟩

/-! ### Throw semantics and stagnation -/



/-! ### Throw semantics on rate-limit denial and login failure -/

/-- C3 (amended): when the hourly quota is exhausted inside the current
window, the crawl throws the rate-limit error before any login,
extraction or scroll, and returns no records; the quota is checked only
once, before collection starts, so no accumulated records can exist at
denial time and none are carried by the error. -/
theorem rate_limited_throw (cfg : ScrapingConfig) (s : ScraperState)
    (env : CrawlEnv) (now endTime idTime : Int) (rand : ℚ) (limit : Nat)
    (hwin : now - s.hourStartTime < 60 * 60 * 1000)
    (hfull : cfg.maxPerHour ≤ s.hourlyRequestCount) :
    scrapeTopicPosts cfg s env now endTime idTime rand limit =
      { outcome := .error .rateLimited, finalState := s,
        extractions := 0, scrolls := 0 } := by
  have hstate : (checkRateLimits cfg s now rand).state = s := by
    rw [checkRateLimits_state_eq, if_neg (by omega)]
  have hdeny : (checkRateLimits cfg s now rand).canProceed = false :=
    checkRateLimits_deny cfg s now rand (by rw [hstate]; exact hfull)
  unfold scrapeTopicPosts
  dsimp only
  rw [hdeny]
  simp [hstate]

/-- C3 counterexample: with the governor pre-seeded at the ceiling the
crawl raises the rate-limit exception (modelled as an error result) with
zero extractions, instead of returning a typed RateLimited outcome
carrying previously accumulated records. -/
theorem rate_limited_cex :
    errOf (scrapeTopicPosts DEFAULT_CONFIG stSeeded envConstHeight 1000 1005 7 0 50).outcome =
      some ScrapeError.rateLimited ∧
    (scrapeTopicPosts DEFAULT_CONFIG stSeeded envConstHeight 1000 1005 7 0 50).extractions = 0 :=
  ⟨by rfl, by rfl⟩

/-- Witness for C3 (amended): a pre-seeded governor inside the window. -/
theorem rate_limited_throw_witness :
    scrapeTopicPosts DEFAULT_CONFIG stSeeded envConstHeight 1000 1005 7 0 50 =
      { outcome := .error .rateLimited, finalState := stSeeded,
        extractions := 0, scrolls := 0 } :=
  rate_limited_throw DEFAULT_CONFIG stSeeded envConstHeight 1000 1005 7 0 50
    (by decide) (by decide)

/-- C4 (amended): when the cookie login check reports the logged-out
state, the crawl throws the login-failure error (it does not return a
typed AuthFailed outcome); no page extraction and no scroll is performed
after the failed authentication, and no records are returned. -/
theorem auth_failure_throw (cfg : ScrapingConfig) (s : ScraperState)
    (env : CrawlEnv) (now endTime idTime : Int) (rand : ℚ) (limit : Nat)
    (hgrant : (checkRateLimits cfg s now rand).canProceed = true)
    (hlogin : env.loginOk = false) :
    scrapeTopicPosts cfg s env now endTime idTime rand limit =
      { outcome := .error .loginFailed,
        finalState := (checkRateLimits cfg s now rand).state,
        extractions := 0, scrolls := 0 } := by
  unfold scrapeTopicPosts
  dsimp only
  rw [hgrant, hlogin]
  simp

/-- C4 counterexample: a crawl whose login check fails raises the
login-failure exception (modelled as an error result) rather than
terminating with a typed AuthFailed outcome; extraction and scroll
counts are zero. -/
theorem auth_failure_cex :
    errOf (scrapeTopicPosts DEFAULT_CONFIG stFresh envAuthReject 0 5 7 0 50).outcome =
      some ScrapeError.loginFailed ∧
    (scrapeTopicPosts DEFAULT_CONFIG stFresh envAuthReject 0 5 7 0 50).extractions = 0 ∧
    (scrapeTopicPosts DEFAULT_CONFIG stFresh envAuthReject 0 5 7 0 50).scrolls = 0 :=
  ⟨by rfl, by rfl, by rfl⟩

/-- Witness for C4 (amended) at a concrete rejecting page. -/
theorem auth_failure_throw_witness :
    scrapeTopicPosts DEFAULT_CONFIG stFresh envAuthReject 0 5 7 0 50 =
      { outcome := .error .loginFailed,
        finalState := (checkRateLimits DEFAULT_CONFIG stFresh 0 0).state,
        extractions := 0, scrolls := 0 } :=
  auth_failure_throw DEFAULT_CONFIG stFresh envAuthReject 0 5 7 0 50
    (by rfl) (by rfl)

/-! ### Stagnation behaviour -/

theorem addUnique_cons_full {limit : Nat} {idTime : Int}
    {posts : List LinkedInPost} {p : RawPost} {rest : List RawPost}
    (h : posts.length ≥ limit) :
    addUnique limit idTime posts (p :: rest) = posts := by
  conv_lhs => rw [addUnique]
  rw [if_pos h]

theorem addUnique_cons_acc {limit : Nat} {idTime : Int}
    {posts : List LinkedInPost} {p : RawPost} {rest : List RawPost}
    (h1 : ¬posts.length ≥ limit)
    (h2 : (!isDuplicate posts p && !(p.content == "")) = true) :
    addUnique limit idTime posts (p :: rest) =
      addUnique limit idTime (posts ++ [mkPost idTime posts.length p]) rest := by
  conv_lhs => rw [addUnique]
  rw [if_neg h1, if_pos h2]

theorem addUnique_cons_rej {limit : Nat} {idTime : Int}
    {posts : List LinkedInPost} {p : RawPost} {rest : List RawPost}
    (h1 : ¬posts.length ≥ limit)
    (h2 : ¬((!isDuplicate posts p && !(p.content == "")) = true)) :
    addUnique limit idTime posts (p :: rest) =
      addUnique limit idTime posts rest := by
  conv_lhs => rw [addUnique]
  rw [if_neg h1, if_neg h2]

theorem addUnique_idem (limit : Nat) (idTime : Int) :
    ∀ (ps : List RawPost) (posts : List LinkedInPost),
      (∀ p ∈ ps, p.author ≠ "") →
      addUnique limit idTime (addUnique limit idTime posts ps) ps =
        addUnique limit idTime posts ps := by
  intro ps
  induction ps with
  | nil => intro posts _; rfl
  | cons p rest ih =>
      intro posts hps
      have hrest : ∀ q ∈ rest, q.author ≠ "" := fun q hq => hps q (by simp [hq])
      by_cases hlen : posts.length ≥ limit
      · rw [addUnique_cons_full hlen]
        exact addUnique_cons_full hlen
      · by_cases hacc : (!isDuplicate posts p && !(p.content == "")) = true
        · rw [addUnique_cons_acc hlen hacc]
          set A := addUnique limit idTime (posts ++ [mkPost idTime posts.length p]) rest with hA
          by_cases hlenA : A.length ≥ limit
          · exact addUnique_cons_full hlenA
          · have hsub : posts ++ [mkPost idTime posts.length p] ⊆ A := by
              rw [hA]; exact addUnique_subset limit idTime rest _
            have hdupA : isDuplicate A p = true := by
              apply isDuplicate_of_mem (mkPost idTime posts.length p) (hsub (by simp))
              · rfl
              · show (if p.author = "" then "Unknown" else p.author) = p.author
                rw [if_neg (hps p (by simp))]
            rw [addUnique_cons_rej hlenA (by simp [hdupA]), hA]
            exact ih _ hrest
        · rw [addUnique_cons_rej hlen hacc]
          set A := addUnique limit idTime posts rest with hA
          have hacc2 : isDuplicate posts p = true ∨ p.content = "" := by
            by_contra hno
            push_neg at hno
            apply hacc
            have h1 : isDuplicate posts p = false := by
              cases hb : isDuplicate posts p
              · rfl
              · exact absurd hb hno.1
            simp [h1, hno.2]
          by_cases hlenA : A.length ≥ limit
          · exact addUnique_cons_full hlenA
          · have hsub : posts ⊆ A := by
              rw [hA]; exact addUnique_subset limit idTime rest posts
            have hrej : ¬((!isDuplicate A p && !(p.content == "")) = true) := by
              rcases hacc2 with hdup | hc
              · have hdupA : isDuplicate A p = true := by
                  obtain ⟨q, hq, hm⟩ := List.any_eq_true.mp hdup
                  exact List.any_eq_true.mpr ⟨q, hsub hq, hm⟩
                simp [hdupA]
              · simp [hc]
            rw [addUnique_cons_rej hlenA hrej, hA]
            exact ih posts hrest

theorem collectLoop_stagnant (limit : Nat) (idTime : Int) (env : CrawlEnv)
    (h : Int) (P : List DomEntry)
    (hh : ∀ i, env.heightAt i = h) (hp : ∀ i, env.pageAt i = P)
    (f : Nat) (hlpos : 0 < limit) :
    (collectLoop limit idTime env (f + 1) 0 0 [] 0 0).posts =
        addUnique limit idTime [] (P.map extractPost) ∧
    (collectLoop limit idTime env (f + 1) 0 0 [] 0 0).extractions ≤ 2 ∧
    (collectLoop limit idTime env (f + 1) 0 0 [] 0 0).scrolls ≤ 1 := by
  have hmapauthors : ∀ q ∈ P.map extractPost, q.author ≠ "" := by
    intro q hq
    obtain ⟨e, _, rfl⟩ := List.mem_map.mp hq
    exact extractPost_author_ne e
  have step1 : collectLoop limit idTime env (f + 1) 0 0 [] 0 0 =
      if h = 0 then
        { posts := addUnique limit idTime [] (P.map extractPost),
          extractions := 1, scrolls := 0 }
      else collectLoop limit idTime env f 1 h
             (addUnique limit idTime [] (P.map extractPost)) 1 1 := by
    conv_lhs => rw [collectLoop]
    rw [if_pos (by simpa using hlpos), hp 0, hh 0]
  rcases eq_or_ne h 0 with h0 | h0
  · rw [step1, if_pos h0]
    exact ⟨rfl, by norm_num, by norm_num⟩
  · rw [step1, if_neg h0]
    cases f with
    | zero => refine ⟨rfl, ?_, ?_⟩ <;> simp [collectLoop]
    | succ f2 =>
        have step2 : collectLoop limit idTime env (f2 + 1) 1 h
            (addUnique limit idTime [] (P.map extractPost)) 1 1 =
              if (addUnique limit idTime [] (P.map extractPost)).length < limit then
                { posts := addUnique limit idTime [] (P.map extractPost),
                  extractions := 2, scrolls := 1 }
              else
                { posts := addUnique limit idTime [] (P.map extractPost),
                  extractions := 1, scrolls := 1 } := by
          conv_lhs => rw [collectLoop]
          by_cases hA : (addUnique limit idTime [] (P.map extractPost)).length < limit
          · rw [if_pos hA, if_pos hA, hp 1, hh 1]
            dsimp only
            rw [addUnique_idem limit idTime (P.map extractPost) [] hmapauthors]
            rw [if_pos rfl]
          · rw [if_neg hA, if_neg hA]
        rw [step2]
        split
        · exact ⟨rfl, by norm_num, by norm_num⟩
        · exact ⟨rfl, by norm_num, by norm_num⟩

/-- C5 (amended): against a page of constant height and unchanged
content, the crawl terminates after at most two extractions and one
scroll — the height tracker starts at 0, so a constant nonzero height is
only recognized on the second iteration — and returns normally (no typed
Stagnated outcome) with exactly the records of the first extraction. -/
theorem stagnation_termination (cfg : ScrapingConfig) (s : ScraperState)
    (env : CrawlEnv) (now endTime idTime : Int) (rand : ℚ) (limit : Nat)
    (h : Int) (P : List DomEntry)
    (hh : ∀ i, env.heightAt i = h) (hp : ∀ i, env.pageAt i = P)
    (hgrant : (checkRateLimits cfg s now rand).canProceed = true)
    (hlogin : env.loginOk = true) (hnav : env.navOk = true) :
    (scrapeTopicPosts cfg s env now endTime idTime rand limit).extractions ≤ 2 ∧
    (scrapeTopicPosts cfg s env now endTime idTime rand limit).scrolls ≤ 1 ∧
    (scrapeTopicPosts cfg s env now endTime idTime rand limit).outcome =
      .ok (addUnique limit idTime [] (P.map extractPost)) := by
  have hOuter : scrapeTopicPosts cfg s env now endTime idTime rand limit =
      { outcome := .ok (collectLoop limit idTime env ((limit + 9) / 10) 0 0 [] 0 0).posts,
        finalState := bumpCounters (checkRateLimits cfg s now rand).state endTime,
        extractions := (collectLoop limit idTime env ((limit + 9) / 10) 0 0 [] 0 0).extractions,
        scrolls := (collectLoop limit idTime env ((limit + 9) / 10) 0 0 [] 0 0).scrolls } := by
    unfold scrapeTopicPosts
    dsimp only
    rw [hgrant, hlogin, hnav]
    simp
  rcases Nat.eq_zero_or_pos limit with hl0 | hlpos
  · subst hl0
    have hA0 : addUnique 0 idTime [] (P.map extractPost) = [] := by
      cases P.map extractPost with
      | nil => rfl
      | cons q qs => exact addUnique_cons_full (by omega)
    rw [hOuter, hA0]
    refine ⟨?_, ?_, ?_⟩ <;> simp [collectLoop]
  · obtain ⟨f, hf⟩ : ∃ f, (limit + 9) / 10 = f + 1 := ⟨(limit + 9) / 10 - 1, by omega⟩
    have hC := collectLoop_stagnant limit idTime env h P hh hp f hlpos
    rw [hOuter, hf]
    exact ⟨hC.2.1, hC.2.2, by rw [hC.1]⟩

/-- Witness for C5 (amended): a concrete constant page with two posts. -/
theorem stagnation_termination_witness :
    (scrapeTopicPosts DEFAULT_CONFIG stFresh envPrefixPair 0 5 7 0 50).extractions ≤ 2 ∧
    (scrapeTopicPosts DEFAULT_CONFIG stFresh envPrefixPair 0 5 7 0 50).scrolls ≤ 1 ∧
    (scrapeTopicPosts DEFAULT_CONFIG stFresh envPrefixPair 0 5 7 0 50).outcome =
      .ok (addUnique 50 7 [] ([entHello1, entHello2].map extractPost)) :=
  stagnation_termination DEFAULT_CONFIG stFresh envPrefixPair 0 5 7 0 50 100
    [entHello1, entHello2] (fun _ => rfl) (fun _ => rfl) (by rfl) rfl rfl

/-- C5 counterexample: against a page whose height is constant (100 on
every observation) the crawl performs two extraction iterations and one
scroll, not at most one iteration, and ends with a normal return rather
than a typed Stagnated outcome. -/
theorem stagnation_cex :
    (scrapeTopicPosts DEFAULT_CONFIG stFresh envConstHeight 0 5 7 0 50).extractions = 2 ∧
    (scrapeTopicPosts DEFAULT_CONFIG stFresh envConstHeight 0 5 7 0 50).scrolls = 1 ∧
    errOf (scrapeTopicPosts DEFAULT_CONFIG stFresh envConstHeight 0 5 7 0 50).outcome = none :=
  ⟨by rfl, by rfl, by rfl⟩

/-! ### Extraction fallbacks and counter atomicity -/

theorem addUnique_content_ne (limit : Nat) (idTime : Int) :
    ∀ (ps : List RawPost) (posts : List LinkedInPost),
      (∀ q ∈ posts, q.content ≠ "") →
      ∀ q ∈ addUnique limit idTime posts ps, q.content ≠ "" := by
  intro ps
  induction ps with
  | nil => intro posts h; exact h
  | cons p rest ih =>
      intro posts h
      by_cases hlen : posts.length ≥ limit
      · rw [addUnique_cons_full hlen]; exact h
      · by_cases hacc : (!isDuplicate posts p && !(p.content == "")) = true
        · rw [addUnique_cons_acc hlen hacc]
          apply ih
          intro q hq
          rcases List.mem_append.mp hq with hq1 | hq2
          · exact h q hq1
          · simp only [List.mem_singleton] at hq2
            subst hq2
            show p.content ≠ ""
            simp only [Bool.and_eq_true, Bool.not_eq_true'] at hacc
            intro hc
            rw [hc] at hacc
            simp at hacc
        · rw [addUnique_cons_rej hlen hacc]; exact ih posts h

theorem collectLoop_content_ne (limit : Nat) (idTime : Int) (env : CrawlEnv) :
    ∀ (fuel i : Nat) (prevH : Int) (posts : List LinkedInPost) (ex sc : Nat),
      (∀ q ∈ posts, q.content ≠ "") →
      ∀ q ∈ (collectLoop limit idTime env fuel i prevH posts ex sc).posts,
        q.content ≠ "" := by
  intro fuel
  induction fuel with
  | zero => intro i prevH posts ex sc h; simpa [collectLoop] using h
  | succ fuel ih =>
      intro i prevH posts ex sc h
      have hstep := addUnique_content_ne limit idTime
        ((env.pageAt i).map extractPost) posts h
      unfold collectLoop
      dsimp only
      split
      · split
        · exact hstep
        · exact ih _ _ _ _ _ hstep
      · exact h

/-- C9 (amended): page extraction is total and best-effort — every
record returned by a crawl has nonempty content (entries with missing or
empty content are silently dropped), a missing author element is
substituted with the string Unknown (not the empty string), a missing
content element with the empty string, and missing engagement counters
with 0. -/
theorem extraction_total_fallbacks :
    (∀ (cfg : ScrapingConfig) (s : ScraperState) (env : CrawlEnv)
        (now endTime idTime : Int) (rand : ℚ) (limit : Nat)
        (l : List LinkedInPost),
        (scrapeTopicPosts cfg s env now endTime idTime rand limit).outcome = .ok l →
        ∀ p ∈ l, p.content ≠ "") ∧
    (∀ e : DomEntry, e.authorText = none → (extractPost e).author = "Unknown") ∧
    (∀ e : DomEntry, e.contentText = none → (extractPost e).content = "") ∧
    (∀ e : DomEntry, e.likesText = none → (extractPost e).likes = 0) ∧
    (∀ e : DomEntry, e.commentsText = none → (extractPost e).comments = 0) := by
  refine ⟨?_, ?_, ?_, ?_, ?_⟩
  · intro cfg s env now endTime idTime rand limit l h
    unfold scrapeTopicPosts at h
    dsimp only at h
    split at h
    · exact absurd h (by simp)
    · split at h
      · exact absurd h (by simp)
      · split at h
        · exact absurd h (by simp)
        · simp only [Except.ok.injEq] at h
          rw [← h]
          exact collectLoop_content_ne limit idTime env _ 0 0 [] 0 0 (by simp)
  · intro e he; simp [extractPost, he]
  · intro e he; simp [extractPost, he]; rfl
  · intro e he; simp [extractPost, he]; rfl
  · intro e he; simp [extractPost, he]; rfl

/-- C9 counterexample: a DOM entry with no author element produces the
author Unknown, not the empty string, and that record is returned by the
crawl with author Unknown. -/
theorem extraction_author_cex :
    (extractPost entNoAuthor).author = "Unknown" ∧
    ¬((extractPost entNoAuthor).author = "") ∧
    (scrapeTopicPosts DEFAULT_CONFIG stFresh envNoAuthor 0 5 7 0 10).outcome =
      Except.ok [{ id := "post_7_0", author := "Unknown", content := "hello",
                   likes := 0, comments := 0, shares := 0 }] :=
  ⟨by rfl, by decide, by rfl⟩

/-- Witness for C9 (amended) at a concrete crawl and a concrete
authorless entry. -/
theorem extraction_total_fallbacks_witness :
    (∀ p ∈ ([helloPost1, helloPost2] : List LinkedInPost), p.content ≠ "") ∧
    (extractPost entNoAuthor).author = "Unknown" :=
  ⟨extraction_total_fallbacks.1 DEFAULT_CONFIG stFresh envPrefixPair 0 5 7 0 10
     [helloPost1, helloPost2] (by rfl),
   extraction_total_fallbacks.2.1 entNoAuthor rfl⟩

/-- C10: quota accounting is atomic with respect to failure — for each
of the three crawl operations, if the operation throws, the counters are
exactly those left by the initial rate-limit check, and only a
successful completion increments the lifetime counter, the hourly
counter, and sets the last-request timestamp. -/
theorem quota_atomicity (cfg : ScrapingConfig) (s : ScraperState)
    (envT : CrawlEnv) (envP : ProfileEnv) (envC : CreatorEnv)
    (now endTime idTime : Int) (rand : ℚ) (limitT limitC : Nat) :
    ((∀ e, (scrapeTopicPosts cfg s envT now endTime idTime rand limitT).outcome = .error e →
        (scrapeTopicPosts cfg s envT now endTime idTime rand limitT).finalState =
          (checkRateLimits cfg s now rand).state) ∧
     (∀ l, (scrapeTopicPosts cfg s envT now endTime idTime rand limitT).outcome = .ok l →
        (scrapeTopicPosts cfg s envT now endTime idTime rand limitT).finalState =
          bumpCounters (checkRateLimits cfg s now rand).state endTime)) ∧
    ((∀ e, (scrapeProfile cfg s envP now endTime rand).outcome = .error e →
        (scrapeProfile cfg s envP now endTime rand).finalState =
          (checkRateLimits cfg s now rand).state) ∧
     (∀ pr, (scrapeProfile cfg s envP now endTime rand).outcome = .ok pr →
        (scrapeProfile cfg s envP now endTime rand).finalState =
          bumpCounters (checkRateLimits cfg s now rand).state endTime)) ∧
    ((∀ e, (searchTopCreators cfg s envC now endTime rand limitC).outcome = .error e →
        (searchTopCreators cfg s envC now endTime rand limitC).finalState =
          (checkRateLimits cfg s now rand).state) ∧
     (∀ cl, (searchTopCreators cfg s envC now endTime rand limitC).outcome = .ok cl →
        (searchTopCreators cfg s envC now endTime rand limitC).finalState =
          bumpCounters (checkRateLimits cfg s now rand).state endTime)) := by
  refine ⟨⟨?_, ?_⟩, ⟨?_, ?_⟩, ⟨?_, ?_⟩⟩ <;>
    intro x h <;> revert h <;>
    simp only [scrapeTopicPosts, scrapeProfile, searchTopCreators] <;>
    split <;>
    (try split) <;>
    (try split) <;>
    intro h <;>
    first | rfl | exact absurd h (by simp)

/-- Witness for C10: the three operations against rejecting pages leave
the counters exactly as the rate check left them. -/
theorem quota_atomicity_witness :
    (scrapeTopicPosts DEFAULT_CONFIG stFresh envAuthReject 0 5 7 0 10).finalState =
      (checkRateLimits DEFAULT_CONFIG stFresh 0 0).state ∧
    (scrapeProfile DEFAULT_CONFIG stFresh profEnvReject 0 5 0).finalState =
      (checkRateLimits DEFAULT_CONFIG stFresh 0 0).state ∧
    (searchTopCreators DEFAULT_CONFIG stFresh creatorEnvReject 0 5 0 10).finalState =
      (checkRateLimits DEFAULT_CONFIG stFresh 0 0).state :=
  ⟨(quota_atomicity DEFAULT_CONFIG stFresh envAuthReject profEnvReject creatorEnvReject
      0 5 7 0 10 10).1.1 ScrapeError.loginFailed (by rfl),
   (quota_atomicity DEFAULT_CONFIG stFresh envAuthReject profEnvReject creatorEnvReject
      0 5 7 0 10 10).2.1.1 ScrapeError.loginFailed (by rfl),
   (quota_atomicity DEFAULT_CONFIG stFresh envAuthReject profEnvReject creatorEnvReject
      0 5 7 0 10 10).2.2.1 ScrapeError.loginFailed (by rfl)⟩

/-! ### Pacing delay bounds -/

theorem checkRateLimits_waited (cfg : ScrapingConfig) (s : ScraperState)
    (now : Int) (rand : ℚ)
    (h : (checkRateLimits cfg s now rand).canProceed = true) :
    (checkRateLimits cfg s now rand).waited =
      if now - s.lastRequestTime < getRandomDelay cfg rand then
        getRandomDelay cfg rand - (now - s.lastRequestTime)
      else 0 := by
  revert h
  unfold checkRateLimits
  dsimp only
  split <;> split <;> intro h <;> first | rfl | simp_all

/-- C8: the randomized inter-request delay never falls outside the
closed interval from minDelay to maxDelay; when the time elapsed since
the last request is below the drawn delay, a granted check sleeps for
exactly the difference, so elapsed time plus sleep always reaches the
drawn delay and hence at least minDelay. -/
theorem pacing_lower_bound (cfg : ScrapingConfig) (s : ScraperState)
    (now : Int) (rand : ℚ)
    (h0 : 0 ≤ rand) (h1 : rand < 1) (hbound : cfg.minDelay ≤ cfg.maxDelay) :
    cfg.minDelay ≤ getRandomDelay cfg rand ∧
    getRandomDelay cfg rand ≤ cfg.maxDelay ∧
    ((checkRateLimits cfg s now rand).canProceed = true →
      getRandomDelay cfg rand ≤
        (now - s.lastRequestTime) + (checkRateLimits cfg s now rand).waited) ∧
    (now - s.lastRequestTime < getRandomDelay cfg rand →
      (checkRateLimits cfg s now rand).canProceed = true →
      (checkRateLimits cfg s now rand).waited =
        getRandomDelay cfg rand - (now - s.lastRequestTime)) := by
  have hcast : (cfg.minDelay : ℚ) ≤ (cfg.maxDelay : ℚ) := by exact_mod_cast hbound
  have hnn : (0 : ℚ) ≤ (cfg.maxDelay : ℚ) - (cfg.minDelay : ℚ) := by linarith
  have hlow : cfg.minDelay ≤ getRandomDelay cfg rand := by
    unfold getRandomDelay
    rw [Int.le_floor]
    have := mul_nonneg h0 hnn
    linarith
  have hhigh : getRandomDelay cfg rand ≤ cfg.maxDelay := by
    unfold getRandomDelay
    have hle : rand * ((cfg.maxDelay : ℚ) - (cfg.minDelay : ℚ)) + (cfg.minDelay : ℚ) ≤
        (cfg.maxDelay : ℚ) := by nlinarith
    calc Int.floor (rand * ((cfg.maxDelay : ℚ) - (cfg.minDelay : ℚ)) + (cfg.minDelay : ℚ))
        ≤ Int.floor ((cfg.maxDelay : ℚ)) := Int.floor_le_floor hle
      _ = cfg.maxDelay := Int.floor_intCast _
  refine ⟨hlow, hhigh, ?_, ?_⟩
  · intro hg
    rw [checkRateLimits_waited cfg s now rand hg]
    split <;> omega
  · intro hlt hg
    rw [checkRateLimits_waited cfg s now rand hg, if_pos hlt]

/-- Witness for C8 at the default 3000 to 8000 bounds with draw 1/2. -/
theorem pacing_lower_bound_witness :
    (3000 : Int) ≤ getRandomDelay DEFAULT_CONFIG (1/2) ∧
    getRandomDelay DEFAULT_CONFIG (1/2) ≤ 8000 ∧
    ((checkRateLimits DEFAULT_CONFIG stFresh 0 (1/2)).canProceed = true →
      getRandomDelay DEFAULT_CONFIG (1/2) ≤
        (0 - stFresh.lastRequestTime) + (checkRateLimits DEFAULT_CONFIG stFresh 0 (1/2)).waited) ∧
    (0 - stFresh.lastRequestTime < getRandomDelay DEFAULT_CONFIG (1/2) →
      (checkRateLimits DEFAULT_CONFIG stFresh 0 (1/2)).canProceed = true →
      (checkRateLimits DEFAULT_CONFIG stFresh 0 (1/2)).waited =
        getRandomDelay DEFAULT_CONFIG (1/2) - (0 - stFresh.lastRequestTime)) :=
  pacing_lower_bound DEFAULT_CONFIG stFresh 0 (1/2) (by norm_num) (by norm_num) (by decide)


end LinkAgent
